import Mathlib

/-!
Verification development for the cloud-browser session-multiplexing server.

The definitions in this file are a shallow embedding of the TypeScript
sources of the repository, chiefly
src/cloud-browser-server/src/services/BrowserSession.ts,
src/cloud-browser-server/src/services/SessionManager.ts and the key-code
utilities.  JavaScript Map objects are embedded as association lists with
set-replaces-in-place semantics, JavaScript numbers appearing in box-model
geometry as rationals (with Option Rat for the NaN / undefined results of
out-of-range indexing), and the asynchronous CDP calls as a synchronous
transcript of commands appended to a per-session log; every await is taken
to complete before the caller resumes, which is the sequential reading of
the code in which each public method runs to completion.
-/

namespace CloudBrowser

/-- Association-list embedding of a JavaScript Map: set replaces the first
binding of the key in place, otherwise appends, matching insertion order
semantics of Map.prototype.set. -/
def jsMapSet {α : Type} (m : List (String × α)) (k : String) (v : α) :
    List (String × α) :=
  match m with
  | [] => [(k, v)]
  | (k0, v0) :: rest =>
    if k0 == k then (k, v) :: rest else (k0, v0) :: jsMapSet rest k v

/-- Map.prototype.get: first binding of the key (keys are unique when the
map is built with jsMapSet). -/
def jsMapGet {α : Type} (m : List (String × α)) (k : String) : Option α :=
  match m with
  | [] => none
  | (k0, v0) :: rest => if k0 == k then some v0 else jsMapGet rest k

/-- Map.prototype.delete: removes the binding of the key. -/
def jsMapDelete {α : Type} (m : List (String × α)) (k : String) :
    List (String × α) :=
  match m with
  | [] => []
  | p :: rest =>
    if p.1 != k then p :: jsMapDelete rest k else jsMapDelete rest k

/-- Set.prototype.add on a set of strings kept as a duplicate-free list. -/
def jsSetAdd (s : List String) (x : String) : List String :=
  if s.contains x then s else s ++ [x]

/-- Set.prototype.delete. -/
def jsSetDelete (s : List String) (x : String) : List String :=
  s.filter (fun y => y != x)

/-- String.prototype.repeat. -/
def jsRepeat (s : String) (n : Nat) : String :=
  String.join (List.replicate n s)

/- ===================== A11y tree model ===================== -/

/-- A primitive JavaScript value as it occurs in accessibility node
property bags: a string, a boolean, a number, or undefined. -/
inductive PVal where
  | s (v : String)
  | b (v : Bool)
  | n (v : Int)
  | undefined
  deriving DecidableEq

/-- JavaScript truthiness of a primitive value. -/
def PVal.truthy : PVal → Bool
  | .s v => v != ""
  | .b v => v
  | .n v => v != 0
  | .undefined => false

/-- JavaScript string coercion as performed by template literals. -/
def PVal.toStr : PVal → String
  | .s v => v
  | .b true => "true"
  | .b false => "false"
  | .n v => toString v
  | .undefined => "undefined"

/-- An accessibility node as consumed by the compressor.  The two property
layouts of the source (entries of the properties array, whose AXValue
wrappers are resolved to their inner value, and top-level AXValue fields
such as name and description, likewise resolved) are kept as two bags. -/
structure AXNode where
  nodeId : String
  /-- node.role computed as the source does with role?.value, absent role
  read as the empty string by the fallback. -/
  role : Option String
  ignored : Bool
  childIds : Option (List String)
  backendDOMNodeId : Option Nat
  /-- entries of the node.properties array, name paired with the resolved
  AXValue payload. -/
  properties : Option (List (String × PVal))
  /-- top-level AXValue fields (name, description, value, ...), resolved;
  presence of the field makes the wrapper object truthy in the source. -/
  fields : List (String × PVal)
  deriving DecidableEq

/-- node.role?.value with the empty-string fallback of the source. -/
def roleOf (node : AXNode) : String := node.role.getD ""

/-- getNodeProperty of BrowserSession.ts: look in the properties array
first, then at the top-level field of the same name, else undefined. -/
def getNodeProperty (node : AXNode) (propName : String) : PVal :=
  match node.properties with
  | some props =>
    match props.find? (fun p => p.1 == propName) with
    | some p => p.2
    | none =>
      match node.fields.find? (fun p => p.1 == propName) with
      | some p => p.2
      | none => .undefined
  | none =>
    match node.fields.find? (fun p => p.1 == propName) with
    | some p => p.2
    | none => .undefined

/-- CONTROL_ROLES of BrowserSession.ts. -/
def CONTROL_ROLES : List String :=
  ["button", "checkbox", "combobox", "listbox", "menu", "menubar",
   "menuitem", "menuitemcheckbox", "menuitemradio", "option", "progressbar",
   "radio", "scrollbar", "searchbox", "slider", "spinbutton", "switch",
   "tab", "tablist", "textbox", "tree", "treeitem", "link", "gridcell"]

/-- LANDMARK_ROLES of BrowserSession.ts. -/
def LANDMARK_ROLES : List String :=
  ["banner", "complementary", "contentinfo", "form", "main", "navigation",
   "region", "search"]

/-- LEAF_ROLES of BrowserSession.ts. -/
def LEAF_ROLES : List String :=
  ["textbox", "searchbox", "image", "progressbar", "slider", "separator",
   "meter", "scrollbar", "spinbutton"]

/-- isLeafNode of BrowserSession.ts. -/
def isLeafNode (node : AXNode) (nodeMap : List (String × AXNode))
    (childrenMap : List (String × List String)) : Bool :=
  let role := roleOf node
  if LEAF_ROLES.contains role then true
  else
    let children := (jsMapGet childrenMap node.nodeId).getD []
    if children.isEmpty then true
    else children.all (fun childId =>
      match jsMapGet nodeMap childId with
      | none => true
      | some child =>
        let childRole := roleOf child
        child.ignored || childRole == "StaticText" || childRole == "text" ||
          childRole == "none")

/-- isInterestingNode of BrowserSession.ts, with its exact check order. -/
def isInterestingNode (node : AXNode) (nodeMap : List (String × AXNode))
    (childrenMap : List (String × List String)) (insideControl : Bool) :
    Bool :=
  let role := roleOf node
  let name := getNodeProperty node "name"
  let description := getNodeProperty node "description"
  if role == "Ignored" || node.ignored then false
  else if LANDMARK_ROLES.contains role then true
  else if CONTROL_ROLES.contains role then true
  else
    let focusable := getNodeProperty node "focusable"
    let editable := getNodeProperty node "editable"
    let modal := getNodeProperty node "modal"
    let live := getNodeProperty node "live"
    if focusable.truthy || editable.truthy || modal.truthy ||
        (live.truthy && live != PVal.s "off") then true
    else if role == "heading" && name.truthy then true
    else if insideControl && !focusable.truthy then false
    else if isLeafNode node nodeMap childrenMap &&
        (name.truthy || description.truthy) then true
    else if role == "image" && name.truthy then true
    else if (role == "StaticText" || role == "text") && name.truthy then true
    else false

/-- The getParent closure passed to markAncestorsInteresting: scan the
children map in insertion order for the first entry whose child list
contains the id. -/
def getParentOf (childrenMap : List (String × List String)) (id : String) :
    Option String :=
  (childrenMap.find? (fun p => p.2.contains id)).map (fun p => p.1)

/-- markAncestorsInteresting of BrowserSession.ts.  The while loop adds a
previously absent id on every iteration and each added id is a key of the
children map, so running it with fuel larger than the number of entries of
the children map computes the loop exactly. -/
def markAncestorsInteresting (fuel : Nat) (nodeId : String)
    (childrenMap : List (String × List String)) (ids : List String) :
    List String :=
  match fuel with
  | 0 => ids
  | fuel + 1 =>
    match getParentOf childrenMap nodeId with
    | none => ids
    | some parentId =>
      if ids.contains parentId then ids
      else markAncestorsInteresting fuel parentId childrenMap
        (jsSetAdd ids parentId)

/-- collectInterestingNodes of BrowserSession.ts; the recursion over the
tree is bounded by fuel as the source recursion is bounded only by the
acyclicity of the input. -/
def collectInterestingNodes (fuel : Nat) (nodeId : Option String)
    (nodeMap : List (String × AXNode))
    (childrenMap : List (String × List String)) (ids : List String)
    (insideControl : Bool) : List String :=
  match fuel with
  | 0 => ids
  | fuel + 1 =>
    match nodeId with
    | none => ids
    | some nid =>
      match jsMapGet nodeMap nid with
      | none => ids
      | some node =>
        let ids :=
          if isInterestingNode node nodeMap childrenMap insideControl then
            markAncestorsInteresting (childrenMap.length + 1) nid
              childrenMap (jsSetAdd ids nid)
          else ids
        let children := (jsMapGet childrenMap nid).getD []
        let isControl := CONTROL_ROLES.contains (roleOf node)
        children.foldl
          (fun acc childId =>
            collectInterestingNodes fuel (some childId) nodeMap childrenMap
              acc (insideControl || isControl))
          ids

/-- The node map built by filterInterestingNodes and compressAXTreeToText. -/
def buildNodeMap (nodes : List AXNode) : List (String × AXNode) :=
  nodes.foldl (fun m n => jsMapSet m n.nodeId n) []

/-- The children map built by filterInterestingNodes and
compressAXTreeToText, keyed only for nodes carrying childIds. -/
def buildChildrenMap (nodes : List AXNode) : List (String × List String) :=
  nodes.foldl
    (fun m n =>
      match n.childIds with
      | some cs => jsMapSet m n.nodeId cs
      | none => m)
    []

/-- filterInterestingNodes of BrowserSession.ts. -/
def filterInterestingNodes (fuel : Nat) (nodes : List AXNode) :
    List AXNode :=
  let nodeMap := buildNodeMap nodes
  let childrenMap := buildChildrenMap nodes
  let interestingIds :=
    collectInterestingNodes fuel ((nodes.head?).map (fun n => n.nodeId))
      nodeMap childrenMap [] false
  nodes.filterMap (fun n =>
    if interestingIds.contains n.nodeId then
      match n.childIds with
      | some cs =>
        let filtered := cs.filter (fun id => interestingIds.contains id)
        if filtered.length == 0 then some { n with childIds := none }
        else some { n with childIds := some filtered }
      | none => some n
    else none)

/-- The uid computed by formatNodeLine: the truthiness test of the source
on backendDOMNodeId makes an absent or zero id fall back to the raw
accessibility nodeId. -/
def uidOf (node : AXNode) (depth : Nat) : String :=
  match node.backendDOMNodeId with
  | some b => if b != 0 then toString depth ++ "_" ++ toString b
              else node.nodeId
  | none => node.nodeId

/-- formatNodeLine of BrowserSession.ts. -/
def formatNodeLine (node : AXNode) (depth : Nat) : Option String :=
  let role := roleOf node
  if role == "Ignored" || node.ignored then none
  else
    let name := getNodeProperty node "name"
    let url := getNodeProperty node "url"
    let value := getNodeProperty node "value"
    let focusable := getNodeProperty node "focusable"
    let focused := getNodeProperty node "focused"
    let multiline := getNodeProperty node "multiline"
    let checked := getNodeProperty node "checked"
    let expanded := getNodeProperty node "expanded"
    let selected := getNodeProperty node "selected"
    let disabled := getNodeProperty node "disabled"
    let required := getNodeProperty node "required"
    let level := getNodeProperty node "level"
    let indent := jsRepeat "  " depth
    let uid := uidOf node depth
    let attrs : List String :=
      (if url.truthy then ["url=\"" ++ url.toStr ++ "\""] else []) ++
      (if focusable.truthy then ["focusable"] else []) ++
      (if focused.truthy then ["focused"] else []) ++
      (if multiline.truthy then ["multiline"] else []) ++
      (if checked == PVal.s "true" || checked == PVal.b true then
        ["checked"] else []) ++
      (if checked == PVal.s "mixed" then ["checked=mixed"] else []) ++
      (if expanded == PVal.b true then ["expanded"] else []) ++
      (if expanded == PVal.b false then ["collapsed"] else []) ++
      (if selected.truthy then ["selected"] else []) ++
      (if disabled.truthy then ["disabled"] else []) ++
      (if required.truthy then ["required"] else []) ++
      (if level.truthy then ["level=" ++ level.toStr] else []) ++
      (if value != PVal.undefined && value != name then
        ["value=\"" ++ value.toStr ++ "\""] else [])
    let line := indent ++ "uid=" ++ uid ++ " " ++ role
    let line := if name.truthy then
                  line ++ (" \"" ++ name.toStr ++ "\"")
                else line
    let line := if attrs.length > 0 then
                  line ++ (" " ++ String.intercalate " " attrs)
                else line
    some line

/-- buildCompressedTree of BrowserSession.ts: emit the formatted line for
the node when formatNodeLine does not skip it, then recurse into the
children at depth + 1.  Fuel bounds the recursion as for the collector. -/
def buildCompressedTree (fuel : Nat) (nodeId : String) (depth : Nat)
    (nodeMap : List (String × AXNode))
    (childrenMap : List (String × List String)) : List String :=
  match fuel with
  | 0 => []
  | fuel + 1 =>
    match jsMapGet nodeMap nodeId with
    | none => []
    | some node =>
      (match formatNodeLine node depth with
       | some l => [l]
       | none => []) ++
      ((jsMapGet childrenMap nodeId).getD []).foldr
        (fun childId acc =>
          buildCompressedTree fuel childId (depth + 1) nodeMap childrenMap
            ++ acc)
        []

/-- The visit order of buildCompressedTree, instrumented to return the
visited nodes paired with the depth at which each was visited. -/
def visitTree (fuel : Nat) (nodeId : String) (depth : Nat)
    (nodeMap : List (String × AXNode))
    (childrenMap : List (String × List String)) : List (AXNode × Nat) :=
  match fuel with
  | 0 => []
  | fuel + 1 =>
    match jsMapGet nodeMap nodeId with
    | none => []
    | some node =>
      (node, depth) ::
      ((jsMapGet childrenMap nodeId).getD []).foldr
        (fun childId acc =>
          visitTree fuel childId (depth + 1) nodeMap childrenMap ++ acc)
        []

/- ===================== Input key mapper ===================== -/

/-- KeyModifiers of src/cloud-browser-server/src/types. -/
structure KeyModifiers where
  ctrl : Bool
  alt : Bool
  meta : Bool
  shift : Bool
  deriving DecidableEq

/-- getModifierFlags of utils: alt 1, ctrl 2, meta 4, shift 8, combined
with bitwise or as in the source. -/
def getModifierFlags (m : KeyModifiers) : Nat :=
  let flags := 0
  let flags := if m.alt then flags ||| 1 else flags
  let flags := if m.ctrl then flags ||| 2 else flags
  let flags := if m.meta then flags ||| 4 else flags
  let flags := if m.shift then flags ||| 8 else flags
  flags

/-- KEY_CODE_MAP of utils. -/
def KEY_CODE_MAP : List (String × Nat) :=
  [("Backspace", 8), ("Tab", 9), ("Enter", 13), ("Shift", 16),
   ("Control", 17), ("Alt", 18), ("Escape", 27), ("Space", 32),
   ("ArrowLeft", 37), ("ArrowUp", 38), ("ArrowRight", 39),
   ("ArrowDown", 40), ("Delete", 46),
   ("F1", 112), ("F2", 113), ("F3", 114), ("F4", 115), ("F5", 116),
   ("F6", 117), ("F7", 118), ("F8", 119), ("F9", 120), ("F10", 121),
   ("F11", 122), ("F12", 123)]

/-- getKeyCode of utils: the named-key table first, then character codes
for single characters, with lowercase letters mapped through their
uppercase code; all map values are nonzero so the truthiness test on the
table lookup is presence. -/
def getKeyCode (key code : String) : Nat :=
  match jsMapGet KEY_CODE_MAP key with
  | some v => v
  | none =>
    match key.data with
    | [c] => if 'a' ≤ c ∧ c ≤ 'z' then c.toUpper.toNat else c.toNat
    | _ => 0

/- ===================== Browser session ===================== -/

/-- ClientType of the clients module. -/
inductive ClientType where
  | viewer
  | api
  deriving DecidableEq

/-- A client as the session sees it: its socket id and its type. -/
structure Client where
  socketId : String
  ctype : ClientType
  deriving DecidableEq

/-- A CDP command sent on the transport, recording the fields the claims
inspect.  keyEvent carries the single virtual key code that the source
writes into both windowsVirtualKeyCode and nativeVirtualKeyCode; char
events carry no key code.  Mouse coordinates are Option Rat, none standing
for the NaN produced by arithmetic over undefined array entries. -/
inductive Cmd where
  | startScreencast
  | stopScreencast
  | keyEvent (etype key code : String) (modifiers : Nat) (vk : Nat)
  | charEvent (text key code : String) (modifiers : Nat)
  | mouseEvent (etype : String) (x y : Option Rat) (button : Option String)
      (clickCount : Option Nat)
  | other (method : String)
  deriving DecidableEq

/-- The state of a BrowserSession, together with two instrumentation
fields: sent is the transcript of commands issued on the CDP transport,
and closeCount counts invocations of browserClient.close().  The
browserClient field records whether the transport handle is non-null; the
pressedModifiers set, which only ever holds the strings Control, Alt and
Shift, is kept as three booleans.  emittedErrors records the payloads of
browser:error events broadcast to viewers. -/
structure BrowserSession where
  browserClient : Bool
  sessionId : Option String
  targetId : Option String
  currentUrl : String
  token : String
  viewerClients : List String
  apiClients : List String
  screencastStarted : Bool
  pressedControl : Bool
  pressedAlt : Bool
  pressedShift : Bool
  sent : List Cmd
  closeCount : Nat
  emittedErrors : List String
  deriving DecidableEq

/-- The state produced by the BrowserSession constructor. -/
def initialSession : BrowserSession :=
  { browserClient := false, sessionId := none, targetId := none,
    currentUrl := "", token := "", viewerClients := [], apiClients := [],
    screencastStarted := false, pressedControl := false,
    pressedAlt := false, pressedShift := false, sent := [],
    closeCount := 0, emittedErrors := [] }

/-- Issue a command on the transport: append it to the transcript. -/
def sendCmd (s : BrowserSession) (c : Cmd) : BrowserSession :=
  { s with sent := s.sent ++ [c] }

/-- getClientCount. -/
def getClientCount (s : BrowserSession) : Nat :=
  s.viewerClients.length + s.apiClients.length

/-- startScreencast: a no-op without a page session or when already
started, otherwise send Page.startScreencast and set the flag. -/
def startScreencast (s : BrowserSession) : BrowserSession :=
  match s.sessionId with
  | none => s
  | some _ =>
    if s.screencastStarted then s
    else
      let s := sendCmd s Cmd.startScreencast
      { s with screencastStarted := true }

/-- stopScreencast: a no-op without a page session or when not started,
otherwise send Page.stopScreencast and clear the flag. -/
def stopScreencast (s : BrowserSession) : BrowserSession :=
  match s.sessionId with
  | none => s
  | some _ =>
    if !s.screencastStarted then s
    else
      let s := sendCmd s Cmd.stopScreencast
      { s with screencastStarted := false }

/-- tryStartScreencast. -/
def tryStartScreencast (s : BrowserSession) : BrowserSession :=
  if s.screencastStarted || s.viewerClients.length == 0 then s
  else startScreencast s

/-- tryStopScreencast. -/
def tryStopScreencast (s : BrowserSession) : BrowserSession :=
  if !s.screencastStarted || s.viewerClients.length > 0 then s
  else stopScreencast s

/-- addClient. -/
def addClient (s : BrowserSession) (c : Client) : BrowserSession :=
  match c.ctype with
  | .viewer =>
    tryStartScreencast
      { s with viewerClients := jsSetAdd s.viewerClients c.socketId }
  | .api =>
    { s with apiClients := jsSetAdd s.apiClients c.socketId }

/-- removeClient, returning the remaining-connections boolean. -/
def removeClient (s : BrowserSession) (c : Client) :
    BrowserSession × Bool :=
  let s :=
    match c.ctype with
    | .viewer =>
      let s :=
        { s with viewerClients := jsSetDelete s.viewerClients c.socketId }
      if s.viewerClients.length == 0 then tryStopScreencast s else s
    | .api =>
      { s with apiClients := jsSetDelete s.apiClients c.socketId }
  (s, decide (getClientCount s > 0))

/-- connectToPage: attach to the target (the returned session id and the
current URL read from Page.getFrameTree are parameters of the embedding),
enable the Page and Runtime domains, apply the viewport, and start the
screencast when a viewer is attached.  When the browser client is null the
source throws before any mutation, so the state is returned unchanged. -/
def connectToPage (s : BrowserSession) (targetId newSessionId url : String) :
    BrowserSession :=
  if !s.browserClient then s
  else
    let s := sendCmd s (Cmd.other "Target.attachToTarget")
    let s := { s with sessionId := some newSessionId,
                      targetId := some targetId }
    let s := sendCmd s (Cmd.other "Page.enable")
    let s := sendCmd s (Cmd.other "Runtime.enable")
    let s := sendCmd s (Cmd.other "Page.getFrameTree")
    let s := { s with currentUrl := url }
    let s := sendCmd s (Cmd.other "Emulation.setDeviceMetricsOverride")
    if s.viewerClients.length > 0 then startScreencast s else s

/-- MODIFIER_KEYS of BrowserSession.ts: code and key code per modifier. -/
def modifierKeyConfig (key : String) : String × Nat :=
  if key == "Control" then ("ControlLeft", 17)
  else if key == "Alt" then ("AltLeft", 18)
  else ("ShiftLeft", 16)

/-- dispatchModifierKey. -/
def dispatchModifierKey (s : BrowserSession) (etype key : String)
    (modifiers : Nat) : BrowserSession :=
  let config := modifierKeyConfig key
  sendCmd s (Cmd.keyEvent etype key config.1 modifiers config.2)

/-- getCurrentModifierFlags: the flag encoding of the tracked pressed
modifiers, with meta always false. -/
def getCurrentModifierFlags (s : BrowserSession) : Nat :=
  getModifierFlags
    { ctrl := s.pressedControl, alt := s.pressedAlt, meta := false,
      shift := s.pressedShift }

/-- keyDown of BrowserSession.ts. -/
def keyDown (s : BrowserSession) (key code : String) (m : KeyModifiers) :
    BrowserSession :=
  match s.sessionId with
  | none => s
  | some _ =>
    let s :=
      if (m.ctrl || m.meta) && !s.pressedControl then
        let s := dispatchModifierKey s "keyDown" "Control" 0
        { s with pressedControl := true }
      else s
    let s :=
      if m.alt && !s.pressedAlt then
        let s :=
          dispatchModifierKey s "keyDown" "Alt" (getCurrentModifierFlags s)
        { s with pressedAlt := true }
      else s
    let s :=
      if m.shift && !s.pressedShift then
        let s :=
          dispatchModifierKey s "keyDown" "Shift"
            (getCurrentModifierFlags s)
        { s with pressedShift := true }
      else s
    let modifierFlags := getModifierFlags m
    let s :=
      sendCmd s
        (Cmd.keyEvent "keyDown" key code modifierFlags
          (getKeyCode key code))
    if key.length == 1 then
      sendCmd s (Cmd.charEvent key key code modifierFlags)
    else s

/-- keyUp of BrowserSession.ts: primary release first, then the synthetic
modifier releases in the order Shift, Alt, Control; Shift and Alt carry
the tracked flags computed after their own deletion, Control carries the
literal 0 of the source. -/
def keyUp (s : BrowserSession) (key code : String) (m : KeyModifiers) :
    BrowserSession :=
  match s.sessionId with
  | none => s
  | some _ =>
    let modifierFlags := getModifierFlags m
    let s :=
      sendCmd s
        (Cmd.keyEvent "keyUp" key code modifierFlags (getKeyCode key code))
    let s :=
      if !m.shift && s.pressedShift then
        let s := { s with pressedShift := false }
        dispatchModifierKey s "keyUp" "Shift" (getCurrentModifierFlags s)
      else s
    let s :=
      if !m.alt && s.pressedAlt then
        let s := { s with pressedAlt := false }
        dispatchModifierKey s "keyUp" "Alt" (getCurrentModifierFlags s)
      else s
    let s :=
      if !(m.ctrl || m.meta) && s.pressedControl then
        let s := { s with pressedControl := false }
        dispatchModifierKey s "keyUp" "Control" 0
      else s
    s

/- ===================== Element click ===================== -/

/-- The inner model object of a DOM.getBoxModel reply; content is absent
when the field is null or undefined, and carries the quad numbers
otherwise (an empty array is a present, truthy value). -/
structure BoxModelInner where
  content : Option (List Rat)
  deriving DecidableEq

/-- A DOM.getBoxModel reply value; model is absent when null/undefined. -/
structure BoxModelResult where
  model : Option BoxModelInner
  deriving DecidableEq

/-- JavaScript addition over possibly-undefined numbers: indexing past the
end of the content array yields undefined and any arithmetic touching it
yields NaN, both embedded as none. -/
def jsAdd (a b : Option Rat) : Option Rat :=
  match a, b with
  | some x, some y => some (x + y)
  | _, _ => none

/-- Division by 4 of a possibly-NaN number. -/
def jsDiv4 (a : Option Rat) : Option Rat :=
  match a with
  | some x => some (x / 4)
  | none => none

/-- click of BrowserSession.ts.  The reply of DOM.getBoxModel is the resp
parameter; the source rethrows the not-found error from its catch block,
embedded as the error branch of Except.  Without a page session the
source returns without doing anything. -/
def click (s : BrowserSession) (backendNodeId : Nat)
    (resp : Option BoxModelResult) : Except String BrowserSession :=
  match s.sessionId with
  | none => .ok s
  | some _ =>
    let s := sendCmd s (Cmd.other "DOM.enable")
    let s := sendCmd s (Cmd.other "DOM.getBoxModel")
    let bad : Bool :=
      match resp with
      | none => true
      | some bm =>
        match bm.model with
        | none => true
        | some m => m.content.isNone
    if bad then
      .error ("Element with backendNodeId " ++ toString backendNodeId ++
        " not found or has no box model")
    else
      let content :=
        (((resp.getD ⟨none⟩).model.getD ⟨none⟩).content).getD []
      let centerX :=
        jsDiv4 (jsAdd (jsAdd (jsAdd (content.get? 0) (content.get? 2))
          (content.get? 4)) (content.get? 6))
      let centerY :=
        jsDiv4 (jsAdd (jsAdd (jsAdd (content.get? 1) (content.get? 3))
          (content.get? 5)) (content.get? 7))
      let s :=
        sendCmd s
          (Cmd.mouseEvent "mousePressed" centerX centerY (some "left")
            (some 1))
      let s :=
        sendCmd s
          (Cmd.mouseEvent "mouseReleased" centerX centerY (some "left")
            (some 1))
      .ok s

/- ===================== Active page election ===================== -/

/-- One entry of Target.getTargets().targetInfos. -/
structure TargetInfo where
  targetId : String
  ttype : String
  url : String
  deriving DecidableEq

/-- The visibility probe performed inside the findActiveTarget loop:
attach, enable Runtime, evaluate document.visibilityState, detach.  The
probe is a parameter of the embedding; some v is the evaluated value when
every step succeeded, none stands for any step of the probe throwing (the
loop catches and moves on). -/
def probeResult := String → Option String

/-- The for-of loop of findActiveTarget: return the first page whose probe
succeeded with the value visible. -/
def findActiveLoop (probe : String → Option String) :
    List TargetInfo → Option String
  | [] => none
  | p :: rest =>
    if probe p.targetId == some "visible" then some p.targetId
    else findActiveLoop probe rest

/-- findActiveTarget of BrowserSession.ts, on the connected path (with a
null browser client the source returns null before listing targets). -/
def findActiveTarget (targets : List TargetInfo)
    (probe : String → Option String) : Option String :=
  let pages :=
    targets.filter (fun t => t.ttype == "page" && t.url != "about:blank")
  match findActiveLoop probe pages with
  | some tid => some tid
  | none =>
    match pages with
    | p :: _ => some p.targetId
    | [] =>
      let allPages := targets.filter (fun t => t.ttype == "page")
      match allPages with
      | p :: _ => some p.targetId
      | [] => none

/-- Modelled from the spec sentence for the election order: return the
first target whose evaluation yields visible; if none is visible, fall
back to the first non-blank page; if none exists, fall back to any page
target; if still none, signal no page. -/
def findActiveTargetSpec (targets : List TargetInfo)
    (probe : String → Option String) : Option String :=
  let nonBlankPages :=
    targets.filter (fun t => t.ttype == "page" && t.url != "about:blank")
  match nonBlankPages.find?
      (fun p => probe p.targetId == some "visible") with
  | some p => some p.targetId
  | none =>
    match nonBlankPages.head? with
    | some p => some p.targetId
    | none =>
      (targets.find? (fun t => t.ttype == "page")).map
        (fun t => t.targetId)

/- ===================== Disconnect and connect ===================== -/

/-- disconnect of BrowserSession.ts: stop the screencast and detach when a
page session and a browser client are present (only then is sessionId
cleared), close the browser client when present (counted by the
instrumentation field), then reset the remaining state. -/
def disconnect (s : BrowserSession) : BrowserSession :=
  let s :=
    if s.sessionId.isSome && s.browserClient then
      let s := sendCmd s Cmd.stopScreencast
      let s := sendCmd s (Cmd.other "Target.detachFromTarget")
      { s with sessionId := none }
    else s
  let s :=
    if s.browserClient then
      { s with browserClient := false, closeCount := s.closeCount + 1 }
    else s
  { s with targetId := none, token := "", screencastStarted := false,
           viewerClients := [], apiClients := [] }

/-- The environment of one connectToBrowser run: either the CDP dial
itself rejects, or some awaited step after the transport opened rejects,
or everything succeeds and the run sees the given target list, visibility
probe, attach results and initial URL (createdTarget being the target id
that Target.createTarget returns when no active target is found). -/
inductive ConnectOutcome where
  | failCdp (msg : String)
  | failLater (msg : String)
  | ok (targets : List TargetInfo) (probe : String → Option String)
      (createdTarget newSessionId url : String)

/-- The body of connectToBrowser with its exceptions made explicit: an
error carries the message and the session state at the throw point. -/
def connectToBrowserTry (s : BrowserSession) (token : String)
    (o : ConnectOutcome) : Except (String × BrowserSession) BrowserSession :=
  let s := { s with token := token }
  match o with
  | .failCdp msg => .error (msg, s)
  | .failLater msg => .error (msg, { s with browserClient := true })
  | .ok targets probe createdTarget newSessionId url =>
    let s := { s with browserClient := true }
    let s := sendCmd s (Cmd.other "Target.setDiscoverTargets")
    let s :=
      match findActiveTarget targets probe with
      | some tid => connectToPage s tid newSessionId url
      | none =>
        let s := sendCmd s (Cmd.other "Target.createTarget")
        connectToPage s createdTarget newSessionId url
    .ok s

/-- connectToBrowser of BrowserSession.ts: the whole body sits in a
try/catch whose catch logs and broadcasts browser:error, so the method
itself never rejects. -/
def connectToBrowser (s : BrowserSession) (token : String)
    (o : ConnectOutcome) : BrowserSession :=
  match connectToBrowserTry s token o with
  | .ok s => s
  | .error (msg, s) =>
    { s with emittedErrors := s.emittedErrors ++ [msg] }

/- ===================== Session manager ===================== -/

/-- The SessionManager state.  destroyed is an instrumentation graveyard:
sessions removed from sessionsByToken are appended there so their final
state stays observable; the source simply drops the last reference, and
never touches a session after removal, so the graveyard entries are
final. -/
structure Manager where
  sessionsByToken : List (String × BrowserSession)
  clientsBySocketId : List (String × Client)
  socketTokenMap : List (String × String)
  destroyed : List BrowserSession
  deriving DecidableEq

/-- The initial, empty manager. -/
def initialManager : Manager :=
  { sessionsByToken := [], clientsBySocketId := [], socketTokenMap := [],
    destroyed := [] }

/-- removeClientFromSession of SessionManager.ts. -/
def removeClientFromSession (m : Manager) (socketId : String) : Manager :=
  let m :=
    match jsMapGet m.socketTokenMap socketId,
        jsMapGet m.clientsBySocketId socketId with
    | some token, some client =>
      (match jsMapGet m.sessionsByToken token with
       | some sess =>
         let r := removeClient sess client
         if !r.2 then
           let final := disconnect r.1
           { m with
             sessionsByToken := jsMapDelete m.sessionsByToken token,
             destroyed := m.destroyed ++ [final] }
         else
           { m with
             sessionsByToken := jsMapSet m.sessionsByToken token r.1 }
       | none => m)
    | _, _ => m
  { m with clientsBySocketId := jsMapDelete m.clientsBySocketId socketId,
           socketTokenMap := jsMapDelete m.socketTokenMap socketId }

/-- connectBrowser of SessionManager.ts, returning the reused flag.  The
source stores the new session in sessionsByToken before awaiting
connectToBrowser and mutates it through the shared reference; with no
interleaving observer the by-value embedding stores the final state once.
-/
def connectBrowser (m : Manager) (socketId token : String)
    (ctype : ClientType) (o : ConnectOutcome) : Manager × Bool :=
  let m :=
    match jsMapGet m.socketTokenMap socketId with
    | some _ => removeClientFromSession m socketId
    | none => m
  let client : Client := ⟨socketId, ctype⟩
  let m :=
    { m with
      clientsBySocketId := jsMapSet m.clientsBySocketId socketId client,
      socketTokenMap := jsMapSet m.socketTokenMap socketId token }
  match jsMapGet m.sessionsByToken token with
  | some sess =>
    let sess := addClient sess client
    ({ m with sessionsByToken := jsMapSet m.sessionsByToken token sess },
      true)
  | none =>
    let sess := addClient initialSession client
    let sess := connectToBrowser sess token o
    ({ m with sessionsByToken := jsMapSet m.sessionsByToken token sess },
      false)

/- ===================== Reachability ===================== -/

/-- The session-level operations quantified over by the reachability
claim: client addition and removal and page attachment. -/
inductive SessionOp where
  | add (c : Client)
  | remove (c : Client)
  | connectPage (targetId newSessionId url : String)

/-- Apply one session operation. -/
def applySessionOp (s : BrowserSession) : SessionOp → BrowserSession
  | .add c => addClient s c
  | .remove c => (removeClient s c).1
  | .connectPage tid sid url => connectToPage s tid sid url

/-- A session whose CDP transport has been opened (the state right after
the CDP dial of connectToBrowser succeeded), from which the claimed
operation sequences run. -/
def connectedInit : BrowserSession :=
  { initialSession with browserClient := true }

/-- Session states reachable from a freshly connected session by
addClient, removeClient and connectToPage. -/
inductive ReachableSession : BrowserSession → Prop where
  | init : ReachableSession connectedInit
  | step (s : BrowserSession) (op : SessionOp) :
      ReachableSession s → ReachableSession (applySessionOp s op)

/-- The manager-level operations: client attach (connectBrowser under any
environment) and client detach (disconnectBrowser and
handleSocketDisconnect both delegate to removeClientFromSession). -/
inductive ManagerOp where
  | connect (socketId token : String) (ctype : ClientType)
      (o : ConnectOutcome)
  | detach (socketId : String)

/-- Apply one manager operation. -/
def applyManagerOp (m : Manager) : ManagerOp → Manager
  | .connect sock token ctype o => (connectBrowser m sock token ctype o).1
  | .detach sock => removeClientFromSession m sock

/-- Manager states reachable from process start by any sequence of
attaches and detaches. -/
inductive ReachableManager : Manager → Prop where
  | init : ReachableManager initialManager
  | step (m : Manager) (op : ManagerOp) :
      ReachableManager m → ReachableManager (applyManagerOp m op)

/- ===================== Helper lemmas ===================== -/

/-- The pressed-modifier fields after keyDown: each tracked modifier is
the old value joined with the requested flag (ctrl and meta both feeding
Control). -/
theorem keyDown_pressed (s : BrowserSession) (key code : String)
    (m : KeyModifiers) (sid : String) (h : s.sessionId = some sid) :
    (keyDown s key code m).pressedControl
        = (s.pressedControl || (m.ctrl || m.meta)) ∧
      (keyDown s key code m).pressedAlt = (s.pressedAlt || m.alt) ∧
      (keyDown s key code m).pressedShift = (s.pressedShift || m.shift) := by
  by_cases hk : key.length = 1 <;>
    cases hcm : (m.ctrl || m.meta) <;> cases ha : m.alt <;>
    cases hsh : m.shift <;> cases hpc : s.pressedControl <;>
    cases hpa : s.pressedAlt <;> cases hps : s.pressedShift <;>
  simp [keyDown, h, hk, hcm, ha, hsh, hpc, hpa, hps, sendCmd,
    dispatchModifierKey]

/-- The pressed-modifier fields after keyUp: each tracked modifier
survives only when its flag is still requested. -/
theorem keyUp_pressed (s : BrowserSession) (key code : String)
    (m : KeyModifiers) (sid : String) (h : s.sessionId = some sid) :
    (keyUp s key code m).pressedControl
        = ((m.ctrl || m.meta) && s.pressedControl) ∧
      (keyUp s key code m).pressedAlt = (m.alt && s.pressedAlt) ∧
      (keyUp s key code m).pressedShift = (m.shift && s.pressedShift) := by
  cases hcm : (m.ctrl || m.meta) <;> cases ha : m.alt <;>
    cases hsh : m.shift <;> cases hpc : s.pressedControl <;>
    cases hpa : s.pressedAlt <;> cases hps : s.pressedShift <;>
  simp [keyUp, h, hcm, ha, hsh, hpc, hpa, hps, sendCmd,
    dispatchModifierKey]

/-- keyDown does not change the page session id. -/
theorem keyDown_sessionId (s : BrowserSession) (key code : String)
    (m : KeyModifiers) : (keyDown s key code m).sessionId = s.sessionId := by
  cases h : s.sessionId <;> by_cases hk : key.length = 1 <;>
    cases hcm : (m.ctrl || m.meta) <;> cases ha : m.alt <;>
    cases hsh : m.shift <;> cases hpc : s.pressedControl <;>
    cases hpa : s.pressedAlt <;> cases hps : s.pressedShift <;>
  simp [keyDown, h, hk, hcm, ha, hsh, hpc, hpa, hps, sendCmd,
    dispatchModifierKey]

/- ===================== Claim C2 ===================== -/

/-- C2 counterexample: on a connected session where Control and Shift are
both pressed (reached by one keyDown), a keyUp that keeps shift requested
but drops ctrl releases Control with a modifiers field of 0, while the
flag encoding of the pressed-modifier set after that release is 8 (Shift
still pressed).  The claim as stated therefore fails at this input. -/
theorem c2_counterexample :
    ((keyUp (keyDown { connectedInit with sessionId := some "sid" }
        "a" "KeyA" ⟨true, false, false, true⟩)
        "a" "KeyA" ⟨false, false, false, true⟩).sent.getLast?
      = some (Cmd.keyEvent "keyUp" "Control" "ControlLeft" 0 17)) ∧
    ((keyUp (keyDown { connectedInit with sessionId := some "sid" }
        "a" "KeyA" ⟨true, false, false, true⟩)
        "a" "KeyA" ⟨false, false, false, true⟩).pressedShift = true) ∧
    ((keyUp (keyDown { connectedInit with sessionId := some "sid" }
        "a" "KeyA" ⟨true, false, false, true⟩)
        "a" "KeyA" ⟨false, false, false, true⟩).pressedControl = false) ∧
    getModifierFlags ⟨false, false, false, true⟩ = 8 ∧ (0 : Nat) ≠ 8 := by
  decide

/-- C2 amended: on a connected session, keyUp releases each tracked
modifier whose flag is no longer requested (for Control, requested means
ctrl or meta), in the order Shift, then Alt, then Control, after the
primary release.  The synthetic Shift and Alt releases carry the flag
encoding of the pressed-modifier set as it stands after that release;
the synthetic Control release always carries 0, even when Shift or Alt
remain pressed. -/
theorem c2_amended (s : BrowserSession) (key code : String)
    (m : KeyModifiers) (sid : String) (h : s.sessionId = some sid) :
    (keyUp s key code m).sent =
      s.sent ++
      [Cmd.keyEvent "keyUp" key code (getModifierFlags m)
        (getKeyCode key code)] ++
      (if !m.shift && s.pressedShift then
        [Cmd.keyEvent "keyUp" "Shift" "ShiftLeft"
          (getModifierFlags
            ⟨s.pressedControl, s.pressedAlt, false, false⟩) 16]
      else []) ++
      (if !m.alt && s.pressedAlt then
        [Cmd.keyEvent "keyUp" "Alt" "AltLeft"
          (getModifierFlags
            ⟨s.pressedControl, false, false, m.shift && s.pressedShift⟩)
          18]
      else []) ++
      (if !(m.ctrl || m.meta) && s.pressedControl then
        [Cmd.keyEvent "keyUp" "Control" "ControlLeft" 0 17]
      else []) := by
  cases hcm : (m.ctrl || m.meta) <;> cases ha : m.alt <;>
    cases hsh : m.shift <;> cases hpc : s.pressedControl <;>
    cases hpa : s.pressedAlt <;> cases hps : s.pressedShift <;>
  simp [keyUp, h, hcm, ha, hsh, hpc, hpa, hps, sendCmd,
    dispatchModifierKey, modifierKeyConfig, getCurrentModifierFlags]

/-- The concrete session state used by the amended-claim witness. -/
def c2WitnessState : BrowserSession :=
  { connectedInit with
    sessionId := some "sid"
    pressedControl := true
    pressedShift := true }

theorem c2_amended_witness :
    (keyUp c2WitnessState "a" "KeyA" ⟨false, false, false, true⟩).sent =
      [Cmd.keyEvent "keyUp" "a" "KeyA" 8 65,
       Cmd.keyEvent "keyUp" "Control" "ControlLeft" 0 17] := by
  rw [c2_amended c2WitnessState "a" "KeyA" ⟨false, false, false, true⟩
    "sid" rfl]
  decide

/- ===================== Claim C3 ===================== -/

/-- C3: on a connected session, after keyDown the pressed-modifier set
contains every modifier requested true (ctrl and meta both mapping to
Control); after keyUp the pressed-modifier set only contains modifiers
still requested true; and a keyDown immediately followed by a keyUp whose
flags are all false leaves the pressed-modifier set empty. -/
theorem c3_pressed_modifier_invariants (s : BrowserSession)
    (key code : String) (m : KeyModifiers) (sid : String)
    (h : s.sessionId = some sid) :
    (((m.ctrl || m.meta) = true →
        (keyDown s key code m).pressedControl = true) ∧
      (m.alt = true → (keyDown s key code m).pressedAlt = true) ∧
      (m.shift = true → (keyDown s key code m).pressedShift = true)) ∧
    (((keyUp s key code m).pressedControl = true →
        (m.ctrl || m.meta) = true) ∧
      ((keyUp s key code m).pressedAlt = true → m.alt = true) ∧
      ((keyUp s key code m).pressedShift = true → m.shift = true)) ∧
    ((keyUp (keyDown s key code m) key code
        ⟨false, false, false, false⟩).pressedControl = false ∧
      (keyUp (keyDown s key code m) key code
        ⟨false, false, false, false⟩).pressedAlt = false ∧
      (keyUp (keyDown s key code m) key code
        ⟨false, false, false, false⟩).pressedShift = false) := by
  obtain ⟨hd1, hd2, hd3⟩ := keyDown_pressed s key code m sid h
  obtain ⟨hu1, hu2, hu3⟩ := keyUp_pressed s key code m sid h
  have hsid2 : (keyDown s key code m).sessionId = some sid := by
    rw [keyDown_sessionId, h]
  obtain ⟨hv1, hv2, hv3⟩ :=
    keyUp_pressed (keyDown s key code m) key code
      ⟨false, false, false, false⟩ sid hsid2
  refine ⟨⟨?_, ?_, ?_⟩, ⟨?_, ?_, ?_⟩, ?_, ?_, ?_⟩ <;>
    simp_all

/-- C3 witness at a concrete input. -/
theorem c3_witness :
    ((keyDown { connectedInit with sessionId := some "sid" }
        "a" "KeyA" ⟨true, false, false, false⟩).pressedControl = true) ∧
    ((keyUp (keyDown { connectedInit with sessionId := some "sid" }
        "a" "KeyA" ⟨true, false, false, false⟩) "a" "KeyA"
        ⟨false, false, false, false⟩).pressedControl = false) := by
  have := c3_pressed_modifier_invariants
    { connectedInit with sessionId := some "sid" }
    "a" "KeyA" ⟨true, false, false, false⟩ "sid" rfl
  exact ⟨this.1.1 rfl, this.2.2.1⟩

/- ===================== Claim C1 ===================== -/

/-- The session invariant behind claim C1: a running screencast needs a
live viewer, and (auxiliary, needed for the stop path) a running
screencast needs an attached page session. -/
def SessionInv (s : BrowserSession) : Prop :=
  (s.screencastStarted = true → s.viewerClients ≠ []) ∧
  (s.screencastStarted = true → s.sessionId.isSome = true)

theorem jsSetAdd_ne_nil (s : List String) (x : String) :
    jsSetAdd s x ≠ [] := by
  unfold jsSetAdd
  cases s with
  | nil => simp
  | cons a t => split <;> simp

theorem inv_tryStartScreencast (s : BrowserSession) (h : SessionInv s) :
    SessionInv (tryStartScreencast s) := by
  obtain ⟨h1, h2⟩ := h
  cases hs : s.sessionId <;>
    by_cases hf : s.screencastStarted = true <;>
    by_cases hv : s.viewerClients = [] <;>
  simp_all [tryStartScreencast, startScreencast, sendCmd, SessionInv,
    List.length_eq_zero]

theorem inv_addClient (s : BrowserSession) (c : Client)
    (h : SessionInv s) : SessionInv (addClient s c) := by
  unfold addClient
  cases c.ctype with
  | viewer =>
    apply inv_tryStartScreencast
    exact ⟨fun _ => jsSetAdd_ne_nil _ _, h.2⟩
  | api => exact ⟨h.1, h.2⟩

theorem inv_removeClient (s : BrowserSession) (c : Client)
    (h : SessionInv s) : SessionInv (removeClient s c).1 := by
  obtain ⟨h1, h2⟩ := h
  cases hct : c.ctype with
  | api => exact ⟨fun hf => by simp_all [removeClient, hct],
      fun hf => by simp_all [removeClient, hct]⟩
  | viewer =>
    cases hs : s.sessionId <;>
      by_cases hf : s.screencastStarted = true <;>
      by_cases hlen : jsSetDelete s.viewerClients c.socketId = [] <;>
    simp_all [removeClient, tryStopScreencast, stopScreencast, sendCmd,
      SessionInv, List.length_eq_zero]

theorem inv_connectToPage (s : BrowserSession)
    (targetId newSessionId url : String) (h : SessionInv s) :
    SessionInv (connectToPage s targetId newSessionId url) := by
  obtain ⟨h1, h2⟩ := h
  by_cases hb : s.browserClient = true <;>
    by_cases hv : s.viewerClients = [] <;>
    by_cases hf : s.screencastStarted = true <;>
  simp_all [connectToPage, startScreencast, sendCmd, SessionInv,
    List.length_eq_zero, List.length_pos]

/-- Every reachable session state satisfies the invariant. -/
theorem reachable_sessionInv (s : BrowserSession)
    (h : ReachableSession s) : SessionInv s := by
  induction h with
  | init => exact ⟨by simp [connectedInit, initialSession],
      by simp [connectedInit, initialSession]⟩
  | step s op _ ih =>
    cases op with
    | add c => exact inv_addClient s c ih
    | remove c => exact inv_removeClient s c ih
    | connectPage tid sid url => exact inv_connectToPage s tid sid url ih

/-- C1 counterexample: a reachable state (connected transport, no page
attached, one viewer added — the screencast never started because there
is no page session) in which removing the last viewer completes without
any Page.stopScreencast ever being sent, contradicting the unconditional
second half of the claim. -/
theorem c1_counterexample :
    ReachableSession (addClient connectedInit ⟨"v", ClientType.viewer⟩) ∧
    (addClient connectedInit ⟨"v", ClientType.viewer⟩).viewerClients
      = ["v"] ∧
    ((removeClient (addClient connectedInit ⟨"v", ClientType.viewer⟩)
      ⟨"v", ClientType.viewer⟩).1.viewerClients = []) ∧
    Cmd.stopScreencast ∉
      (removeClient (addClient connectedInit ⟨"v", ClientType.viewer⟩)
        ⟨"v", ClientType.viewer⟩).1.sent ∧
    (removeClient (addClient connectedInit ⟨"v", ClientType.viewer⟩)
      ⟨"v", ClientType.viewer⟩).1.sent = [] := by
  refine ⟨?_, by decide, by decide, by decide, by decide⟩
  exact ReachableSession.step connectedInit
    (SessionOp.add ⟨"v", ClientType.viewer⟩) ReachableSession.init

/-- C1 amended: for every reachable session state, a running screencast
implies a non-empty viewer set; and a removeClient call that removes the
last viewer while the screencast is running sends Page.stopScreencast on
the transport and clears screencastStarted before returning.  (When the
screencast is not running such a removal sends nothing, as the
counterexample shows, and the flag is already false.) -/
theorem c1_amended (s : BrowserSession) (c : Client)
    (h : ReachableSession s) :
    (s.screencastStarted = true → s.viewerClients ≠ []) ∧
    (c.ctype = ClientType.viewer →
      jsSetDelete s.viewerClients c.socketId = [] →
      s.screencastStarted = true →
      (removeClient s c).1.screencastStarted = false ∧
      (removeClient s c).1.sent = s.sent ++ [Cmd.stopScreencast]) := by
  have hinv := reachable_sessionInv s h
  refine ⟨hinv.1, fun hct hdel hf => ?_⟩
  obtain ⟨sid, hsid⟩ := Option.isSome_iff_exists.mp (hinv.2 hf)
  simp [removeClient, hct, hdel, hf, hsid, tryStopScreencast,
    stopScreencast, sendCmd]

/-- C1 amended witness: a concrete reachable state with a running
screencast (page attached, one viewer) whose last-viewer removal sends
the stop command. -/
theorem c1_amended_witness :
    ((removeClient
        (addClient (connectToPage connectedInit "t" "sid" "u")
          ⟨"v", ClientType.viewer⟩)
        ⟨"v", ClientType.viewer⟩).1.screencastStarted = false) ∧
    ((removeClient
        (addClient (connectToPage connectedInit "t" "sid" "u")
          ⟨"v", ClientType.viewer⟩)
        ⟨"v", ClientType.viewer⟩).1.sent =
      (addClient (connectToPage connectedInit "t" "sid" "u")
        ⟨"v", ClientType.viewer⟩).sent ++ [Cmd.stopScreencast]) := by
  have hreach :
      ReachableSession
        (addClient (connectToPage connectedInit "t" "sid" "u")
          ⟨"v", ClientType.viewer⟩) :=
    ReachableSession.step _ (SessionOp.add ⟨"v", ClientType.viewer⟩)
      (ReachableSession.step _ (SessionOp.connectPage "t" "sid" "u")
        ReachableSession.init)
  have := (c1_amended _ ⟨"v", ClientType.viewer⟩ hreach).2 rfl
    (by decide) (by decide)
  exact this

/- ===================== Line shape lemmas (C5, C10) ===================== -/

theorem uid_shape_helper (c1 c2 : Prop) [Decidable c1] [Decidable c2]
    (ind u role q t : String) :
    ∃ rest,
      (if c2 then
        (if c1 then ind ++ "uid=" ++ u ++ " " ++ role ++ q
         else ind ++ "uid=" ++ u ++ " " ++ role) ++ t
       else
        (if c1 then ind ++ "uid=" ++ u ++ " " ++ role ++ q
         else ind ++ "uid=" ++ u ++ " " ++ role)) =
      ind ++ "uid=" ++ u ++ " " ++ rest := by
  by_cases h1 : c1 <;> by_cases h2 : c2
  · exact ⟨role ++ q ++ t, by simp [h1, h2, String.append_assoc]⟩
  · exact ⟨role ++ q, by simp [h1, h2, String.append_assoc]⟩
  · exact ⟨role ++ t, by simp [h1, h2, String.append_assoc]⟩
  · exact ⟨role, by simp [h1, h2]⟩

/-- Every emitted line starts with the indent, the uid= marker, the uid of
the node and a space. -/
theorem formatNodeLine_shape (node : AXNode) (depth : Nat) (l : String)
    (h : formatNodeLine node depth = some l) :
    ∃ rest,
      l = jsRepeat "  " depth ++ "uid=" ++ uidOf node depth ++ " " ++
        rest := by
  unfold formatNodeLine at h
  simp only [] at h
  split at h
  · simp at h
  · simp only [Option.some.injEq] at h
    subst h
    exact uid_shape_helper _ _ _ _ _ _ _

/-- Two spaces per depth unit. -/
theorem jsRepeat_length (s : String) (n : Nat) :
    (jsRepeat s n).length = n * s.length := by
  induction n with
  | zero =>
    show (String.join []).length = 0 * s.length
    rw [show String.join [] = "" from rfl]
    simp
  | succ n ih =>
    simp only [jsRepeat, List.replicate_succ, String.join] at ih ⊢
    simp only [List.foldl_cons]
    rw [show ("" ++ s : String) = s from String.empty_append s] at *
    have : ∀ (l : List String) (a b : String),
        (l.foldl (fun r c => r ++ c) (a ++ b)).length =
        a.length + (l.foldl (fun r c => r ++ c) b).length := by
      intro l
      induction l with
      | nil => intro a b; simp [String.length_append]
      | cons x xs ihl =>
        intro a b
        simp only [List.foldl_cons]
        rw [String.append_assoc, ihl]
    calc (List.foldl (fun r c => r ++ c) s
            (List.replicate n s)).length
        = ((List.replicate n s).foldl (fun r c => r ++ c)
            (s ++ "")).length := by rw [String.append_empty]
      _ = s.length + ((List.replicate n s).foldl
            (fun r c => r ++ c) "").length := this _ _ _
      _ = s.length + n * s.length := by rw [ih]
      _ = (n + 1) * s.length := by ring

/- ===================== Claim C10 ===================== -/

/-- C10: in the rendered line of a node, an absent or zero
backendDOMNodeId (presence is JavaScript truthiness) yields a uid equal
to the raw accessibility nodeId with no depth prefix, while a nonzero
backendDOMNodeId yields the depth_backendId uid form. -/
theorem c10_uid_fallback (node : AXNode) (depth : Nat) (l : String)
    (h : formatNodeLine node depth = some l) :
    ((node.backendDOMNodeId = none ∨ node.backendDOMNodeId = some 0) →
      ∃ rest,
        l = jsRepeat "  " depth ++ "uid=" ++ node.nodeId ++ " " ++ rest) ∧
    (∀ b : Nat, node.backendDOMNodeId = some b → b ≠ 0 →
      ∃ rest,
        l = jsRepeat "  " depth ++ "uid=" ++
          (toString depth ++ "_" ++ toString b) ++ " " ++ rest) := by
  obtain ⟨rest, hrest⟩ := formatNodeLine_shape node depth l h
  constructor
  · rintro (hb | hb) <;> exact ⟨rest, by rw [hrest]; simp [uidOf, hb]⟩
  · intro b hb hbne
    exact ⟨rest, by rw [hrest]; simp [uidOf, hb, hbne]⟩

/-- C10 witness: a node without backendDOMNodeId, one with a zero id, and
one with a nonzero id, each rendered at depth 1. -/
theorem c10_witness :
    (∃ rest,
      "  uid=n7 generic \"x\"" =
        jsRepeat "  " 1 ++ "uid=" ++ "n7" ++ " " ++ rest) ∧
    (∃ rest,
      "  uid=n8 generic \"x\"" =
        jsRepeat "  " 1 ++ "uid=" ++ "n8" ++ " " ++ rest) ∧
    (∃ rest,
      "  uid=1_6804 link \"x\"" =
        jsRepeat "  " 1 ++ "uid=" ++
          (toString 1 ++ "_" ++ toString 6804) ++ " " ++ rest) := by
  refine ⟨?_, ?_, ?_⟩
  · exact (c10_uid_fallback
      ⟨"n7", some "generic", false, none, none, none,
        [("name", PVal.s "x")]⟩ 1 _ (by decide)).1 (Or.inl rfl)
  · exact (c10_uid_fallback
      ⟨"n8", some "generic", false, none, some 0, none,
        [("name", PVal.s "x")]⟩ 1 _ (by decide)).1 (Or.inr rfl)
  · exact (c10_uid_fallback
      ⟨"n9", some "link", false, none, some 6804, none,
        [("name", PVal.s "x")]⟩ 1 _ (by decide)).2 6804 rfl (by decide)

/- ===================== Claim C5 ===================== -/

theorem foldr_build_visit (fuel : Nat) (nm : List (String × AXNode))
    (cm : List (String × List String))
    (ih : ∀ nid depth, buildCompressedTree fuel nid depth nm cm =
      (visitTree fuel nid depth nm cm).filterMap
        (fun p => formatNodeLine p.1 p.2)) :
    ∀ (l : List String) (depth : Nat),
      l.foldr (fun c acc =>
          buildCompressedTree fuel c depth nm cm ++ acc) [] =
        (l.foldr (fun c acc => visitTree fuel c depth nm cm ++ acc)
          []).filterMap (fun p => formatNodeLine p.1 p.2) := by
  intro l depth
  induction l with
  | nil => rfl
  | cons c cs ihl =>
    simp only [List.foldr_cons]
    rw [ihl, ih, ← List.filterMap_append]

/-- The compressed rendering is the formatted image of the instrumented
visit: each line comes from the node and depth that visitTree records. -/
theorem buildCompressedTree_eq (fuel : Nat) :
    ∀ (nodeId : String) (depth : Nat) (nm : List (String × AXNode))
      (cm : List (String × List String)),
      buildCompressedTree fuel nodeId depth nm cm =
        (visitTree fuel nodeId depth nm cm).filterMap
          (fun p => formatNodeLine p.1 p.2) := by
  induction fuel with
  | zero => intro nodeId depth nm cm; rfl
  | succ fuel ih =>
    intro nodeId depth nm cm
    unfold buildCompressedTree visitTree
    cases jsMapGet nm nodeId with
    | none => rfl
    | some node =>
      simp only [List.filterMap_cons]
      rw [foldr_build_visit fuel nm cm (fun nid d => ih nid d nm cm)]
      cases hfmt : formatNodeLine node depth <;> simp [hfmt]

/-- C5: every line of the compressed rendering is emitted by a node at
the DFS depth recorded for it by the traversal, and for a node with a
(truthy) backendDOMNodeId the line is the indent of two spaces per depth
unit followed by uid=depth_backendId and a space; so parsing the uid
recovers exactly that depth and backend id. -/
theorem c5_uid_depth_roundtrip :
    (∀ (fuel : Nat) (nodeId : String) (depth : Nat)
      (nm : List (String × AXNode)) (cm : List (String × List String)),
      buildCompressedTree fuel nodeId depth nm cm =
        (visitTree fuel nodeId depth nm cm).filterMap
          (fun p => formatNodeLine p.1 p.2)) ∧
    (∀ (n : AXNode) (d b : Nat) (l : String),
      n.backendDOMNodeId = some b → b ≠ 0 →
      formatNodeLine n d = some l →
      ∃ rest,
        l = jsRepeat "  " d ++ "uid=" ++
            (toString d ++ "_" ++ toString b) ++ " " ++ rest ∧
          (jsRepeat "  " d).length = 2 * d) := by
  refine ⟨fun fuel => buildCompressedTree_eq fuel, ?_⟩
  intro n d b l hb hbne hl
  obtain ⟨rest, hrest⟩ := formatNodeLine_shape n d l hl
  refine ⟨rest, ?_, by
    rw [jsRepeat_length]
    rw [show ("  " : String).length = 2 from rfl, Nat.mul_comm]⟩
  rw [hrest]
  simp [uidOf, hb, hbne]

/-- A concrete root node for the witness tree. -/
def c5Root : AXNode :=
  ⟨"1", some "RootWebArea", false, some ["2"], some 1, none, []⟩

/-- A concrete link node for the witness tree. -/
def c5Link : AXNode :=
  ⟨"2", some "link", false, none, some 6804, none,
    [("name", PVal.s "VIP")]⟩

/-- C5 witness: a two-node tree, evaluated concretely through both
conjuncts of the round-trip theorem. -/
theorem c5_witness :
    (buildCompressedTree 3 "1" 0
        (buildNodeMap [c5Root, c5Link]) (buildChildrenMap [c5Root, c5Link])
      = (visitTree 3 "1" 0 (buildNodeMap [c5Root, c5Link])
          (buildChildrenMap [c5Root, c5Link])).filterMap
          (fun p => formatNodeLine p.1 p.2)) ∧
    (∃ rest,
      "  uid=1_6804 link \"VIP\"" =
        jsRepeat "  " 1 ++ "uid=" ++
            (toString 1 ++ "_" ++ toString 6804) ++ " " ++ rest ∧
          (jsRepeat "  " 1).length = 2 * 1) := by
  refine ⟨c5_uid_depth_roundtrip.1 3 "1" 0 _ _, ?_⟩
  exact c5_uid_depth_roundtrip.2 c5Link 1 6804 _ rfl (by decide) (by decide)

/- ===================== Claim C4 ===================== -/

/-- A control-role parent for the C4 counterexample. -/
def c4Button : AXNode :=
  ⟨"1", some "button", false, some ["2"], some 5, none, []⟩

/-- A non-focusable named heading child for the C4 counterexample. -/
def c4Heading : AXNode :=
  ⟨"2", some "heading", false, none, some 7, none,
    [("name", PVal.s "Hi")]⟩

/-- C4 counterexample: a non-focusable heading with a name, whose only
ancestor is a button (a control role) and whose own role is neither a
landmark nor a control role, is classified interesting by the filtering
pass (it survives filterInterestingNodes and the per-node predicate
accepts it under insideControl), because the heading check of the source
runs before the inside-control rejection.  This falsifies the claim as
stated. -/
theorem c4_counterexample :
    CONTROL_ROLES.contains (roleOf c4Button) = true ∧
    (getNodeProperty c4Heading "focusable").truthy = false ∧
    CONTROL_ROLES.contains (roleOf c4Heading) = false ∧
    LANDMARK_ROLES.contains (roleOf c4Heading) = false ∧
    ((filterInterestingNodes 10 [c4Button, c4Heading]).map
      (fun n => n.nodeId) = ["1", "2"]) ∧
    isInterestingNode c4Heading (buildNodeMap [c4Button, c4Heading])
      (buildChildrenMap [c4Button, c4Heading]) true = true := by
  decide

/-- C4 amended: a non-focusable node visited below a control-role
ancestor (insideControl true in the collector) is classified not
interesting by the per-node predicate unless its own role is a landmark
or control role, or it is editable, modal, or carries a live setting
other than off, or it is a heading with a name — the checks the source
places before its inside-control rejection. -/
theorem c4_amended (node : AXNode) (nm : List (String × AXNode))
    (cm : List (String × List String))
    (hfoc : (getNodeProperty node "focusable").truthy = false)
    (hland : LANDMARK_ROLES.contains (roleOf node) = false)
    (hctrl : CONTROL_ROLES.contains (roleOf node) = false)
    (hedit : (getNodeProperty node "editable").truthy = false)
    (hmodal : (getNodeProperty node "modal").truthy = false)
    (hlive : ((getNodeProperty node "live").truthy &&
      (getNodeProperty node "live" != PVal.s "off")) = false)
    (hhead : ((roleOf node == "heading") &&
      (getNodeProperty node "name").truthy) = false) :
    isInterestingNode node nm cm true = false := by
  have hland2 : roleOf node ∉ LANDMARK_ROLES := by simpa using hland
  have hctrl2 : roleOf node ∉ CONTROL_ROLES := by simpa using hctrl
  unfold isInterestingNode
  simp only []
  by_cases hi : (roleOf node == "Ignored" || node.ignored) = true
  · simp [hi]
  · simp [hi, hland2, hctrl2, hfoc, hedit, hmodal, hlive, hhead]

/-- C4 amended witness: a plain non-focusable generic node below a
control is rejected. -/
theorem c4_amended_witness :
    isInterestingNode ⟨"9", some "generic", false, none, none, none, []⟩
      [] [] true = false :=
  c4_amended ⟨"9", some "generic", false, none, none, none, []⟩ [] []
    (by decide) (by decide) (by decide) (by decide) (by decide)
    (by decide) (by decide)

/- ===================== Claim C6 ===================== -/

theorem findActiveLoop_eq_find (probe : String → Option String) :
    ∀ l : List TargetInfo,
      findActiveLoop probe l =
        (l.find? (fun p => probe p.targetId == some "visible")).map
          (fun p => p.targetId) := by
  intro l
  induction l with
  | nil => rfl
  | cons p rest ih =>
    by_cases hp : (probe p.targetId == some "visible") = true
    · simp [findActiveLoop, hp, List.find?_cons_of_pos]
    · rw [Bool.not_eq_true] at hp
      simp [findActiveLoop, hp, List.find?_cons_of_neg, ih]

/-- C6: the active-page election returns the first non-blank page whose
visibility probe yielded visible; failing that the first non-blank page;
failing that the first page target of any url; and none when no page
target exists (so the caller creates one). -/
theorem c6_active_page_election (targets : List TargetInfo)
    (probe : String → Option String) :
    findActiveTarget targets probe = findActiveTargetSpec targets probe := by
  unfold findActiveTarget findActiveTargetSpec
  simp only [findActiveLoop_eq_find]
  cases hfind : (targets.filter
      (fun t => t.ttype == "page" && t.url != "about:blank")).find?
      (fun p => probe p.targetId == some "visible") with
  | some p => simp
  | none =>
    simp only [Option.map_none']
    cases hp : targets.filter
        (fun t => t.ttype == "page" && t.url != "about:blank") with
    | cons q qs => simp [List.head?]
    | nil =>
      simp only [List.head?]
      rw [← List.filter_head?]
      cases targets.filter (fun t => t.ttype == "page") <;>
        simp [List.head?]

/- ===================== Claim C7 ===================== -/

/-- A connected session with a page attached, shared by the concrete
click and election scenarios. -/
def connectedWithPage : BrowserSession :=
  { connectedInit with sessionId := some "sid" }

/-- C7 counterexample: with a present but empty content quad the source
does not raise the not-found error (an empty array is truthy), and
instead dispatches the press and release with NaN coordinates; the error
branch of the claim is therefore wrong for the content-empty case. -/
theorem c7_counterexample :
    click connectedWithPage 42
        (some ⟨some ⟨some []⟩⟩) =
      Except.ok
        (sendCmd (sendCmd (sendCmd (sendCmd connectedWithPage
          (Cmd.other "DOM.enable")) (Cmd.other "DOM.getBoxModel"))
          (Cmd.mouseEvent "mousePressed" none none (some "left") (some 1)))
          (Cmd.mouseEvent "mouseReleased" none none (some "left")
            (some 1))) ∧
    click connectedWithPage 42
        (some ⟨some ⟨some []⟩⟩) ≠
      Except.error
        "Element with backendNodeId 42 not found or has no box model" := by
  have h1 : click connectedWithPage 42
      (some ⟨some ⟨some []⟩⟩) =
      Except.ok (sendCmd (sendCmd (sendCmd (sendCmd connectedWithPage
        (Cmd.other "DOM.enable")) (Cmd.other "DOM.getBoxModel"))
        (Cmd.mouseEvent "mousePressed" none none (some "left") (some 1)))
        (Cmd.mouseEvent "mouseReleased" none none (some "left")
          (some 1))) := rfl
  refine ⟨h1, ?_⟩
  rw [h1]
  intro hc
  exact Except.noConfusion hc

/-- C7 amended: on a connected session, click dispatches a mousePressed
followed by a mouseReleased, left button, click count 1, at the
arithmetic mean of the four corner pairs of the content quad when the
quad is present with its 8 numbers; and it fails with the not-found
message exactly when the reply, its model, or its model.content field is
missing (null or undefined) — a present empty quad does not trigger the
error. -/
theorem c7_amended (s : BrowserSession) (sid : String)
    (h : s.sessionId = some sid) (backendNodeId : Nat)
    (resp : Option BoxModelResult) :
    ((resp = none ∨ (∃ bm, resp = some bm ∧ bm.model = none) ∨
      (∃ bm im, resp = some bm ∧ bm.model = some im ∧
        im.content = none)) →
      click s backendNodeId resp =
        Except.error ("Element with backendNodeId " ++
          toString backendNodeId ++
          " not found or has no box model")) ∧
    (∀ x1 y1 x2 y2 x3 y3 x4 y4 : Rat,
      resp = some ⟨some ⟨some [x1, y1, x2, y2, x3, y3, x4, y4]⟩⟩ →
      click s backendNodeId resp =
        Except.ok (sendCmd (sendCmd (sendCmd (sendCmd s
          (Cmd.other "DOM.enable")) (Cmd.other "DOM.getBoxModel"))
          (Cmd.mouseEvent "mousePressed"
            (some ((x1 + x2 + x3 + x4) / 4))
            (some ((y1 + y2 + y3 + y4) / 4)) (some "left") (some 1)))
          (Cmd.mouseEvent "mouseReleased"
            (some ((x1 + x2 + x3 + x4) / 4))
            (some ((y1 + y2 + y3 + y4) / 4)) (some "left") (some 1)))) := by
  constructor
  · rintro (h0 | ⟨bm, h1, h2⟩ | ⟨bm, im, h1, h2, h3⟩)
    · simp [click, h, h0]
    · simp [click, h, h1, h2]
    · simp [click, h, h1, h2, h3]
  · intro x1 y1 x2 y2 x3 y3 x4 y4 hresp
    subst hresp
    simp [click, h, jsAdd, jsDiv4, sendCmd]

/-- C7 amended witness: the S5 quad of the spec, clicking backend node 42
at the center (60, 40), and the missing-reply error case. -/
theorem c7_amended_witness :
    (click connectedWithPage 42
        (some ⟨some ⟨some [10, 20, 110, 20, 110, 60, 10, 60]⟩⟩) =
      Except.ok (sendCmd (sendCmd (sendCmd (sendCmd connectedWithPage
        (Cmd.other "DOM.enable")) (Cmd.other "DOM.getBoxModel"))
        (Cmd.mouseEvent "mousePressed"
          (some ((10 + 110 + 110 + 10) / 4))
          (some ((20 + 20 + 60 + 60) / 4)) (some "left") (some 1)))
        (Cmd.mouseEvent "mouseReleased"
          (some ((10 + 110 + 110 + 10) / 4))
          (some ((20 + 20 + 60 + 60) / 4)) (some "left") (some 1)))) ∧
    (click connectedWithPage 42 none =
      Except.error
        "Element with backendNodeId 42 not found or has no box model") := by
  constructor
  · exact (c7_amended connectedWithPage "sid" rfl 42 _).2
      10 20 110 20 110 60 10 60 rfl
  · exact (c7_amended connectedWithPage "sid" rfl 42 none).1 (Or.inl rfl)

/- ===================== Map lemmas ===================== -/

theorem jsMapGet_set_self {α : Type} (m : List (String × α)) (k : String)
    (v : α) : jsMapGet (jsMapSet m k v) k = some v := by
  induction m with
  | nil => simp [jsMapSet, jsMapGet]
  | cons p rest ih =>
    cases hp : p.1 == k <;> simp_all [jsMapSet, jsMapGet]

theorem jsMapGet_set_ne {α : Type} (m : List (String × α)) (k k' : String)
    (v : α) (h : k' ≠ k) :
    jsMapGet (jsMapSet m k v) k' = jsMapGet m k' := by
  have hk : (k == k') = false := by
    simp only [beq_eq_false_iff_ne, ne_eq]
    exact fun he => h he.symm
  induction m with
  | nil => simp [jsMapSet, jsMapGet, hk]
  | cons p rest ih =>
    cases hp : p.1 == k <;> cases hq : p.1 == k' <;>
      simp_all [jsMapSet, jsMapGet]

theorem jsMapGet_delete_self {α : Type} (m : List (String × α))
    (k : String) : jsMapGet (jsMapDelete m k) k = none := by
  induction m with
  | nil => rfl
  | cons p rest ih =>
    cases hp : p.1 == k <;> simp_all [jsMapDelete, jsMapGet]

theorem jsMapGet_delete_ne {α : Type} (m : List (String × α))
    (k k' : String) (h : k' ≠ k) :
    jsMapGet (jsMapDelete m k) k' = jsMapGet m k' := by
  induction m with
  | nil => rfl
  | cons p rest ih =>
    cases hp : p.1 == k <;> cases hq : p.1 == k' <;>
      simp_all [jsMapDelete, jsMapGet]

/- ===================== closeCount lemmas ===================== -/

theorem closeCount_addClient (s : BrowserSession) (c : Client) :
    (addClient s c).closeCount = s.closeCount := by
  cases hct : c.ctype <;>
    cases hs : s.sessionId <;>
    by_cases hf : s.screencastStarted = true <;>
    by_cases hv : jsSetAdd s.viewerClients c.socketId = [] <;>
  simp_all [addClient, tryStartScreencast, startScreencast, sendCmd,
    List.length_eq_zero]

theorem closeCount_removeClient (s : BrowserSession) (c : Client) :
    ((removeClient s c).1).closeCount = s.closeCount := by
  cases hct : c.ctype <;>
    cases hs : s.sessionId <;>
    by_cases hf : s.screencastStarted = true <;>
    by_cases hv : jsSetDelete s.viewerClients c.socketId = [] <;>
  simp_all [removeClient, tryStopScreencast, stopScreencast, sendCmd,
    List.length_eq_zero]

theorem browserClient_removeClient (s : BrowserSession) (c : Client) :
    ((removeClient s c).1).browserClient = s.browserClient := by
  cases hct : c.ctype <;>
    cases hs : s.sessionId <;>
    by_cases hf : s.screencastStarted = true <;>
    by_cases hv : jsSetDelete s.viewerClients c.socketId = [] <;>
  simp_all [removeClient, tryStopScreencast, stopScreencast, sendCmd,
    List.length_eq_zero]

theorem closeCount_connectToPage (s : BrowserSession)
    (targetId newSessionId url : String) :
    (connectToPage s targetId newSessionId url).closeCount
      = s.closeCount := by
  by_cases hb : s.browserClient = true <;>
    by_cases hv : s.viewerClients = [] <;>
    by_cases hf : s.screencastStarted = true <;>
  simp_all [connectToPage, startScreencast, sendCmd, List.length_eq_zero,
    List.length_pos]

theorem closeCount_connectToBrowser (s : BrowserSession) (token : String)
    (o : ConnectOutcome) :
    (connectToBrowser s token o).closeCount = s.closeCount := by
  cases o with
  | failCdp msg => rfl
  | failLater msg => rfl
  | ok targets probe created sid url =>
    simp only [connectToBrowser, connectToBrowserTry]
    cases findActiveTarget targets probe <;>
      simp [closeCount_connectToPage, sendCmd]

theorem disconnect_closeCount (s : BrowserSession)
    (h : s.browserClient = true) :
    (disconnect s).closeCount = s.closeCount + 1 := by
  cases hs : s.sessionId <;> simp [disconnect, h, hs, sendCmd]

theorem disconnect_browserClient (s : BrowserSession) :
    (disconnect s).browserClient = false := by
  cases hs : s.sessionId <;> by_cases hb : s.browserClient = true <;>
    simp [disconnect, hs, hb, sendCmd]

/- ===================== Manager invariant ===================== -/

/-- Every session registered in sessionsByToken has never had its
transport closed. -/
def ManagerInv (m : Manager) : Prop :=
  ∀ t sess, jsMapGet m.sessionsByToken t = some sess →
    sess.closeCount = 0

theorem inv_removeClientFromSession (m : Manager) (sock : String)
    (h : ManagerInv m) : ManagerInv (removeClientFromSession m sock) := by
  intro t sess hget
  unfold removeClientFromSession at hget
  cases hto : jsMapGet m.socketTokenMap sock with
  | none =>
    rw [hto] at hget
    simp only [] at hget
    exact h t sess hget
  | some token =>
    rw [hto] at hget
    cases hcl : jsMapGet m.clientsBySocketId sock with
    | none =>
      rw [hcl] at hget
      simp only [] at hget
      exact h t sess hget
    | some client =>
      rw [hcl] at hget
      simp only [] at hget
      cases hse : jsMapGet m.sessionsByToken token with
      | none =>
        rw [hse] at hget
        simp only [] at hget
        exact h t sess hget
      | some sess0 =>
        rw [hse] at hget
        by_cases hr : (removeClient sess0 client).2 = true
        · simp only [hr, Bool.not_true, Bool.false_eq_true, if_false]
            at hget
          by_cases ht : t = token
          · subst ht
            rw [jsMapGet_set_self] at hget
            cases hget
            rw [closeCount_removeClient]
            exact h t sess0 hse
          · rw [jsMapGet_set_ne _ _ _ _ ht] at hget
            exact h t sess hget
        · rw [Bool.not_eq_true] at hr
          simp only [hr, Bool.not_false, if_true] at hget
          by_cases ht : t = token
          · subst ht
            rw [jsMapGet_delete_self] at hget
            cases hget
          · rw [jsMapGet_delete_ne _ _ _ ht] at hget
            exact h t sess hget

theorem inv_connectBrowser (m : Manager) (sock token : String)
    (ctype : ClientType) (o : ConnectOutcome) (h : ManagerInv m) :
    ManagerInv (connectBrowser m sock token ctype o).1 := by
  unfold connectBrowser
  have h1 : ManagerInv (match jsMapGet m.socketTokenMap sock with
      | some _ => removeClientFromSession m sock
      | none => m) := by
    cases jsMapGet m.socketTokenMap sock with
    | none => exact h
    | some _ => exact inv_removeClientFromSession m sock h
  generalize (match jsMapGet m.socketTokenMap sock with
      | some _ => removeClientFromSession m sock
      | none => m) = m1 at h1 ⊢
  intro t sess2 hget
  simp only [] at hget
  cases hse : jsMapGet m1.sessionsByToken token with
  | some sess =>
    rw [hse] at hget
    simp only [] at hget
    by_cases ht : t = token
    · subst ht
      rw [jsMapGet_set_self] at hget
      cases hget
      rw [closeCount_addClient]
      exact h1 t sess hse
    · rw [jsMapGet_set_ne _ _ _ _ ht] at hget
      exact h1 t sess2 hget
  | none =>
    rw [hse] at hget
    simp only [] at hget
    by_cases ht : t = token
    · subst ht
      rw [jsMapGet_set_self] at hget
      cases hget
      rw [closeCount_connectToBrowser, closeCount_addClient]
      rfl
    · rw [jsMapGet_set_ne _ _ _ _ ht] at hget
      exact h1 t sess2 hget

/-- Every reachable manager state satisfies the invariant. -/
theorem reachable_managerInv (m : Manager) (h : ReachableManager m) :
    ManagerInv m := by
  induction h with
  | init => intro t sess hget; cases hget
  | step m op _ ih =>
    cases op with
    | connect sock token ctype o =>
      exact inv_connectBrowser m sock token ctype o ih
    | detach sock => exact inv_removeClientFromSession m sock ih

/- ===================== Claim C8 ===================== -/

/-- C8: in any reachable manager state, detaching a client whose removal
leaves its session with zero clients (viewers plus API clients) removes
the token from sessionsByToken and retires the session with its transport
closed exactly once: the close counter goes from 0 (the registry
invariant for live sessions) to 1, and the transport handle is null
afterwards, so no later disconnect can close it again.  As the claim
speaks of the session transport being closed, the session is assumed to
hold an open transport (browserClient non-null). -/
theorem c8_last_detach_destroys (m : Manager) (sock token : String)
    (client : Client) (sess : BrowserSession)
    (hreach : ReachableManager m)
    (hto : jsMapGet m.socketTokenMap sock = some token)
    (hcl : jsMapGet m.clientsBySocketId sock = some client)
    (hse : jsMapGet m.sessionsByToken token = some sess)
    (hzero : (removeClient sess client).2 = false)
    (hbc : sess.browserClient = true) :
    jsMapGet (removeClientFromSession m sock).sessionsByToken token
      = none ∧
    (removeClientFromSession m sock).destroyed =
      m.destroyed ++ [disconnect (removeClient sess client).1] ∧
    (disconnect (removeClient sess client).1).closeCount = 1 ∧
    (disconnect (removeClient sess client).1).browserClient = false := by
  have hcc : sess.closeCount = 0 := reachable_managerInv m hreach token
    sess hse
  refine ⟨?_, ?_, ?_, disconnect_browserClient _⟩
  · unfold removeClientFromSession
    rw [hto, hcl]
    simp only [hse, hzero, Bool.not_false, if_true]
    exact jsMapGet_delete_self _ _
  · unfold removeClientFromSession
    rw [hto, hcl]
    simp only [hse, hzero, Bool.not_false, if_true]
  · rw [disconnect_closeCount _
      (by rw [browserClient_removeClient]; exact hbc)]
    rw [closeCount_removeClient, hcc]

/-- The environment of the concrete C8/C9 scenario: a successful connect
against a browser with no pre-existing pages. -/
def witnessOutcome : ConnectOutcome :=
  ConnectOutcome.ok [] (fun _ => none) "ct" "sid" "u"

/-- The manager after one viewer attached with a fresh token. -/
def c8Manager : Manager :=
  (connectBrowser initialManager "s1" "t" ClientType.viewer
    witnessOutcome).1

/-- The session registered for that token. -/
def c8Session : BrowserSession :=
  connectToBrowser (addClient initialSession ⟨"s1", ClientType.viewer⟩)
    "t" witnessOutcome

/-- C8 witness: detaching the single client of the concrete one-viewer
session destroys it with exactly one transport close. -/
theorem c8_witness :
    jsMapGet (removeClientFromSession c8Manager "s1").sessionsByToken "t"
      = none ∧
    (removeClientFromSession c8Manager "s1").destroyed =
      c8Manager.destroyed ++
        [disconnect (removeClient c8Session
          ⟨"s1", ClientType.viewer⟩).1] ∧
    (disconnect (removeClient c8Session
      ⟨"s1", ClientType.viewer⟩).1).closeCount = 1 ∧
    (disconnect (removeClient c8Session
      ⟨"s1", ClientType.viewer⟩).1).browserClient = false := by
  have hreach : ReachableManager c8Manager :=
    ReachableManager.step initialManager
      (ManagerOp.connect "s1" "t" ClientType.viewer witnessOutcome)
      ReachableManager.init
  exact c8_last_detach_destroys c8Manager "s1" "t"
    ⟨"s1", ClientType.viewer⟩ c8Session hreach rfl rfl rfl rfl rfl

/- ===================== Claim C9 ===================== -/

theorem removeClientFromSession_fresh (m : Manager) (sock token : String)
    (h : jsMapGet m.sessionsByToken token = none) :
    jsMapGet (removeClientFromSession m sock).sessionsByToken token
      = none := by
  unfold removeClientFromSession
  cases hto : jsMapGet m.socketTokenMap sock with
  | none => simpa using h
  | some token2 =>
    cases hcl : jsMapGet m.clientsBySocketId sock with
    | none => simpa using h
    | some client =>
      simp only []
      cases hse : jsMapGet m.sessionsByToken token2 with
      | none => simpa using h
      | some sess =>
        by_cases ht : token = token2
        · subst ht
          rw [h] at hse
          cases hse
        · by_cases hr : (removeClient sess client).2 = true
          · simp only [hr, Bool.not_true, Bool.false_eq_true, if_false]
            rw [jsMapGet_set_ne _ _ _ _ ht]
            exact h
          · rw [Bool.not_eq_true] at hr
            simp only [hr, Bool.not_false, if_true]
            rw [jsMapGet_delete_ne _ _ _ ht]
            exact h

theorem emittedErrors_addClient (s : BrowserSession) (c : Client) :
    (addClient s c).emittedErrors = s.emittedErrors := by
  cases hct : c.ctype <;>
    cases hs : s.sessionId <;>
    by_cases hf : s.screencastStarted = true <;>
    by_cases hv : jsSetAdd s.viewerClients c.socketId = [] <;>
  simp_all [addClient, tryStartScreencast, startScreencast, sendCmd,
    List.length_eq_zero]

theorem browserClient_addClient (s : BrowserSession) (c : Client) :
    (addClient s c).browserClient = s.browserClient := by
  cases hct : c.ctype <;>
    cases hs : s.sessionId <;>
    by_cases hf : s.screencastStarted = true <;>
    by_cases hv : jsSetAdd s.viewerClients c.socketId = [] <;>
  simp_all [addClient, tryStartScreencast, startScreencast, sendCmd,
    List.length_eq_zero]

/-- C9: connectBrowser on a fresh token always reports a non-reused
session and never rejects — the whole connectToBrowser body is wrapped in
a catch that only broadcasts browser:error — and the session stays
registered under the token even when opening the CDP connection failed;
in the dial-failure case its transport handle is still null and the error
message was emitted. -/
theorem c9_fresh_connect_never_rejects (m : Manager) (sock token : String)
    (ctype : ClientType) (o : ConnectOutcome)
    (hfresh : jsMapGet m.sessionsByToken token = none) :
    (connectBrowser m sock token ctype o).2 = false ∧
    jsMapGet (connectBrowser m sock token ctype o).1.sessionsByToken
        token =
      some (connectToBrowser
        (addClient initialSession ⟨sock, ctype⟩) token o) ∧
    (∀ msg, o = ConnectOutcome.failCdp msg →
      (connectToBrowser (addClient initialSession ⟨sock, ctype⟩) token
        o).emittedErrors = [msg] ∧
      (connectToBrowser (addClient initialSession ⟨sock, ctype⟩) token
        o).browserClient = false) ∧
    (∀ msg, o = ConnectOutcome.failLater msg →
      (connectToBrowser (addClient initialSession ⟨sock, ctype⟩) token
        o).emittedErrors = [msg]) := by
  have hfresh1 : jsMapGet (match jsMapGet m.socketTokenMap sock with
      | some _ => removeClientFromSession m sock
      | none => m).sessionsByToken token = none := by
    cases jsMapGet m.socketTokenMap sock with
    | none => exact hfresh
    | some _ => exact removeClientFromSession_fresh m sock token hfresh
  have hmain : (connectBrowser m sock token ctype o).2 = false ∧
      jsMapGet (connectBrowser m sock token ctype o).1.sessionsByToken
          token =
        some (connectToBrowser
          (addClient initialSession ⟨sock, ctype⟩) token o) := by
    unfold connectBrowser
    generalize (match jsMapGet m.socketTokenMap sock with
        | some _ => removeClientFromSession m sock
        | none => m) = m1 at hfresh1 ⊢
    simp only [hfresh1]
    refine ⟨by trivial, jsMapGet_set_self _ _ _⟩
  refine ⟨hmain.1, hmain.2, ?_, ?_⟩
  · intro msg ho
    subst ho
    constructor
    · show (addClient initialSession ⟨sock, ctype⟩).emittedErrors ++ [msg]
        = [msg]
      rw [emittedErrors_addClient]
      rfl
    · show (addClient initialSession ⟨sock, ctype⟩).browserClient = false
      rw [browserClient_addClient]
      rfl
  · intro msg ho
    subst ho
    show (addClient initialSession ⟨sock, ctype⟩).emittedErrors ++ [msg]
      = [msg]
    rw [emittedErrors_addClient]
    rfl

/-- C9 witness: a fresh token whose CDP dial fails with a message. -/
theorem c9_witness :
    (connectBrowser initialManager "s1" "t" ClientType.viewer
      (ConnectOutcome.failCdp "boom")).2 = false ∧
    jsMapGet (connectBrowser initialManager "s1" "t" ClientType.viewer
        (ConnectOutcome.failCdp "boom")).1.sessionsByToken "t" =
      some (connectToBrowser
        (addClient initialSession ⟨"s1", ClientType.viewer⟩) "t"
        (ConnectOutcome.failCdp "boom")) ∧
    (connectToBrowser (addClient initialSession
      ⟨"s1", ClientType.viewer⟩) "t"
      (ConnectOutcome.failCdp "boom")).emittedErrors = ["boom"] ∧
    (connectToBrowser (addClient initialSession
      ⟨"s1", ClientType.viewer⟩) "t"
      (ConnectOutcome.failCdp "boom")).browserClient = false := by
  have h := c9_fresh_connect_never_rejects initialManager "s1" "t"
    ClientType.viewer (ConnectOutcome.failCdp "boom") rfl
  exact ⟨h.1, h.2.1, (h.2.2.1 "boom" rfl).1, (h.2.2.1 "boom" rfl).2⟩

end CloudBrowser
